import Mathlib

/-
Verification of the Vultr cloud driver (salt/cloud/clouds/vultrpy.py).

The embedding models Python values appearing in the driver as a small
inductive type, Python dicts as assignment lists (a later assignment to
the same key overwrites an earlier one, which the lookup function
respects by taking the last matching binding), and the fallible parts of
the code as Option results.  The creation orchestrator is embedded as a
pure function from a request plus an environment of external
collaborators (catalog listings, filesystem, URL validator, submission
response) to an outcome together with a trace of its observable effects.
-/

namespace VultrPy

/-- A Python value as it occurs in the driver: strings, integers and
booleans from decoded JSON and from configuration. -/
inductive JVal where
  | s : String → JVal
  | n : Int → JVal
  | b : Bool → JVal
deriving DecidableEq, Repr

/-- Python str() on the values we model. -/
def pyStr : JVal → String
  | .s v => v
  | .n v => toString v
  | .b v => if v then "True" else "False"

/-- Python truthiness on the values we model. -/
def jTruthy : JVal → Bool
  | .s v => v ≠ ""
  | .n v => v ≠ 0
  | .b v => v

/-- The numeric value of a decimal digit character. -/
def digitVal (c : Char) : Option Nat :=
  if 48 ≤ c.toNat ∧ c.toNat ≤ 57 then some (c.toNat - 48) else none

/-- Read a digit sequence as a natural number; any non-digit fails. -/
def natFromDigits : List Char → Nat → Option Nat
  | [], acc => some acc
  | c :: t, acc =>
    match digitVal c with
    | some d => natFromDigits t (acc * 10 + d)
    | none => none

/-- Python int() on a string: an optional sign followed by at least one
digit; none is a raised ValueError. -/
def pyIntStr (s : String) : Option Int :=
  match s.toList with
  | [] => none
  | '-' :: rest =>
    if rest.isEmpty then none
    else (natFromDigits rest 0).map (fun v => -(v : Int))
  | '+' :: rest =>
    if rest.isEmpty then none
    else (natFromDigits rest 0).map (fun v => (v : Int))
  | l => (natFromDigits l 0).map (fun v => (v : Int))

/-- Python int() conversion on the values we model; none is a raised
ValueError. -/
def pyInt : JVal → Option Int
  | .s v => pyIntStr v
  | .n v => some v
  | .b v => some (if v then 1 else 0)

/-- Does the second character list start the first one. -/
def startsWithList : List Char → List Char → Bool
  | _, [] => true
  | [], _ :: _ => false
  | h :: t, n :: nt => h = n && startsWithList t nt

/-- Does the first string start with the second. -/
def strStartsWith (s start : String) : Bool :=
  startsWithList s.toList start.toList

/-- Does the needle occur anywhere inside the haystack. -/
def containsList : List Char → List Char → Bool
  | [], needle => startsWithList [] needle
  | h :: t, needle => startsWithList (h :: t) needle || containsList t needle

/-- Python str.split on a single comma. -/
def splitCommaAux : List Char → List Char → List String
  | [], acc => [String.mk acc.reverse]
  | c :: rest, acc =>
    if c = ',' then String.mk acc.reverse :: splitCommaAux rest []
    else splitCommaAux rest (c :: acc)

/-- Python s.split(",") . -/
def splitComma (s : String) : List String := splitCommaAux s.toList []

/-- A Python dict with string keys, as an assignment list: later
assignments overwrite earlier ones. -/
abbrev Dict (α : Type) := List (String × α)

/-- Lookup in a string-keyed dict: the last matching assignment wins. -/
def dget {α} (d : Dict α) (k : String) : Option α :=
  d.foldl (fun acc p => if p.1 = k then some p.2 else acc) none

/-- Python membership test (key in dict). -/
def dmem {α} (d : Dict α) (k : String) : Bool :=
  (dget d k).isSome

/-- A Python dict whose keys are arbitrary values (the catalog index
maps both display names, which are decoded JSON values, and provider id
strings to entries). -/
abbrev JDict (α : Type) := List (JVal × α)

/-- Lookup in a value-keyed dict: the last matching assignment wins. -/
def jget {α} (d : JDict α) (k : JVal) : Option α :=
  d.foldl (fun acc p => if p.1 = k then some p.2 else acc) none

/-- One decoded catalog entry (one location, size or image): a JSON
object. -/
abbrev Entry := Dict JVal

theorem jget_foldl {α} (k : JVal) (l : JDict α) :
    ∀ acc : Option α,
      l.foldl (fun acc p => if p.1 = k then some p.2 else acc) acc =
        match jget l k with
        | some v => some v
        | none => acc := by
  induction l with
  | nil => intro acc; simp [jget]
  | cons p t ih =>
    intro acc
    show List.foldl _ (if p.1 = k then some p.2 else acc) t = _
    rw [ih]
    have hj : jget (p :: t) k =
        match jget t k with
        | some v => some v
        | none => if p.1 = k then some p.2 else none := by
      show List.foldl _ (if p.1 = k then some p.2 else none) t = _
      rw [ih]
    rw [hj]
    cases jget t k with
    | some v => rfl
    | none =>
      by_cases h : p.1 = k <;> simp [h]

theorem jget_append {α} (a b : JDict α) (k : JVal) :
    jget (a ++ b) k =
      match jget b k with
      | some v => some v
      | none => jget a k := by
  show List.foldl _ none (a ++ b) = _
  rw [List.foldl_append]
  have := jget_foldl k b (jget a k)
  exact this

theorem jget_append_of_none {α} {a b : JDict α} {k : JVal}
    (h : jget b k = none) : jget (a ++ b) k = jget a k := by
  rw [jget_append, h]

theorem jget_append_of_some {α} {a b : JDict α} {k : JVal} {v : α}
    (h : jget b k = some v) : jget (a ++ b) k = some v := by
  rw [jget_append, h]

/-! ## Base64 encoding (base64.b64encode over the UTF-8 bytes,
salt.utils.stringutils.to_bytes). -/

/-- The base64 alphabet. -/
def b64Alphabet : List Char :=
  "ABCDEFGHIJKLMNOPQRSTUVWXYZabcdefghijklmnopqrstuvwxyz0123456789+/".toList

/-- The base64 digit for a 6-bit group. -/
def b64Digit (i : Nat) : Char := b64Alphabet.getD i 'A'

/-- RFC 4648 base64 of a byte list, with padding. -/
def b64EncodeBytes : List Nat → List Char
  | [] => []
  | [a] =>
      [b64Digit (a / 4), b64Digit (a % 4 * 16), '=', '=']
  | [a, b] =>
      [b64Digit (a / 4), b64Digit (a % 4 * 16 + b / 16), b64Digit (b % 16 * 4), '=']
  | a :: b :: c :: rest =>
      b64Digit (a / 4) :: b64Digit (a % 4 * 16 + b / 16) ::
        b64Digit (b % 16 * 4 + c / 64) :: b64Digit (c % 64) :: b64EncodeBytes rest

/-- UTF-8 bytes of one character. -/
def utf8Char (c : Char) : List Nat :=
  let v := c.toNat
  if v < 128 then [v]
  else if v < 2048 then [192 + v / 64, 128 + v % 64]
  else if v < 65536 then [224 + v / 4096, 128 + v / 64 % 64, 128 + v % 64]
  else [240 + v / 262144, 128 + v / 4096 % 64, 128 + v / 64 % 64, 128 + v % 64]

/-- base64.b64encode(salt.utils.stringutils.to_bytes(s)), as a string. -/
def b64encode (s : String) : String :=
  String.mk (b64EncodeBytes ((s.toList.map utf8Char).flatten))

/-! ## Query result shape and destroy (lines 463 to 491).

destroy performs a server/destroy POST with decode=False; the result
carries the raw body and text.  The embedding models the decision made
on that result: an empty body and text is success (True), anything else
is passed through unchanged (hence not the success value True). -/

/-- The undecoded result of the destroy query: the .get results for the
body and text fields (none models an absent field, Python None). -/
structure HttpResult where
  body : Option String
  text : Option String
deriving DecidableEq, Repr

/-- The decision destroy makes on the query result (lines 486 to 491):
an empty body and text returns True; otherwise the raw result object is
returned. -/
def destroy (result : HttpResult) : Bool ⊕ HttpResult :=
  if result.body = some "" ∧ result.text = some "" then Sum.inl true
  else Sum.inr result

/-- Does the needle occur inside the haystack. -/
def strContains (hay needle : String) : Bool :=
  containsList hay.toList needle.toList

/-- Does the response body carry an error field. -/
def bodyHasError (r : HttpResult) : Bool :=
  match r.body with
  | some b => strContains b "error"
  | none => false

/-! ## Readiness probes (lines 796 to 840).

Each probe inspects one instance snapshot (the decoded result of one
show_instance query).  It returns the not-ready sentinel together with
the sleep it performed, the value it returns when its condition holds,
or a KeyError crash. -/

/-- The result of one probe invocation. -/
inductive ProbeResult where
  | notReady : Nat → ProbeResult
  | value : JVal → ProbeResult
  | keyError : ProbeResult
deriving DecidableEq, Repr

/-- wait_for_hostname (lines 796 to 806). -/
def wait_for_hostname (data : Entry) : ProbeResult :=
  let main_ip := pyStr ((dget data "main_ip").getD (JVal.s "0"))
  if strStartsWith main_ip "0" then .notReady 3
  else
    match dget data "main_ip" with
    | some v => .value v
    | none => .keyError

/-- wait_for_default_password (lines 808 to 818). -/
def wait_for_default_password (data : Entry) : ProbeResult :=
  let default_password := pyStr ((dget data "default_password").getD (JVal.s ""))
  if default_password = "" ∨ default_password = "not supported" then .notReady 1
  else
    match dget data "default_password" with
    | some v => .value v
    | none => .keyError

/-- wait_for_status (lines 820 to 829): the condition polls the status
field, but the value returned on success is data["default_password"]. -/
def wait_for_status (data : Entry) : ProbeResult :=
  if pyStr ((dget data "status").getD (JVal.s "")) ≠ "active" then .notReady 1
  else
    match dget data "default_password" with
    | some v => .value v
    | none => .keyError

/-- wait_for_server_state (lines 831 to 840): the condition polls the
server_state field, but the value returned on success is
data["default_password"]. -/
def wait_for_server_state (data : Entry) : ProbeResult :=
  if pyStr ((dget data "server_state").getD (JVal.s "")) ≠ "ok" then .notReady 1
  else
    match dget data "default_password" with
    | some v => .value v
    | none => .keyError

/-! ## Catalog cache (lines 183 to 205) and id lookup (lines 555 to 566).

_cache_provider_details fetches the three catalogs (one query each) and
indexes every entry under its display name and under its provider id
key, in iteration order; a later assignment to an already used key
overwrites.  A missing name field raises a KeyError while filling the
index, modelled as a none result. -/

/-- The display name of an entry (entry["name"]). -/
def entryName (e : Entry) : Option JVal := dget e "name"

/-- Build the two-key index for one fetched category: for each (key,
entry) pair in order, assign entry["name"] then the key itself to the
entry.  none models the KeyError raised when an entry has no name. -/
def catIndex : Dict Entry → Option (JDict Entry)
  | [] => some []
  | p :: rest =>
    match entryName p.2, catIndex rest with
    | some nm, some idx => some ([(nm, p.2), (JVal.s p.1, p.2)] ++ idx)
    | _, _ => none

/-- The cached DETAILS value after a successful refresh. -/
abbrev Details := Dict (JDict Entry)

instance : DecidableEq (JDict Entry) := fun a b => inferInstanceAs (Decidable (a = b))

instance : DecidableEq Details := fun a b => inferInstanceAs (Decidable (a = b))

/-- The observable effects of the driver, recorded as a trace. -/
inductive Ev where
  | queryList : String → Ev
  | fireEvent : String → Ev
  | submitCreate : Dict JVal → Ev
  | poll : String → Int → Ev
  | bootstrap : Ev
deriving DecidableEq, Repr

/-- The external collaborators and provider data seen by one run. -/
structure Env where
  locations : Dict Entry
  images : Dict Entry
  sizes : Dict Entry
  scripts : Dict Entry
  acctIsos : Dict Entry
  publicIsos : Dict Entry
  firewallGroups : Dict Entry
  sshKeys : Dict Entry
  validUrl : String → Bool
  isFile : String → Bool
  readFile : String → Option String
  renderTemplate : String → String
  createResponse : Option (Dict JVal)

/-- _cache_provider_details (lines 183 to 205): build the three indexes
from the fetched catalogs.  none models the KeyError on an entry
without a name. -/
def cacheProviderDetails (env : Env) : Option Details :=
  match catIndex env.locations, catIndex env.images, catIndex env.sizes with
  | some locs, some imgs, some szs =>
      some [("avail_locations", locs), ("avail_sizes", szs), ("avail_images", imgs)]
  | _, _, _ => none

/-- The three catalog queries issued by _cache_provider_details. -/
def catalogFetchEvents : List Ev :=
  [Ev.queryList "regions/list", Ev.queryList "os/list", Ev.queryList "plans/list"]

/-- The pure part of _lookup_vultrid (lines 562 to 566): stringify the
key, then DETAILS[availkey][which_key][keyname]; a KeyError at any of
the three subscripts returns False. -/
def lookupVultrid (details : Details) (which_key : JVal)
    (availkey keyname : String) : JVal :=
  match dget details availkey with
  | none => JVal.b false
  | some idx =>
    match jget idx (JVal.s (pyStr which_key)) with
    | none => JVal.b false
    | some e => (dget e keyname).getD (JVal.b false)

/-- _lookup_vultrid with its lazy population of the DETAILS global
(lines 555 to 561): when the cache is empty the full three-category
fetch runs first.  Returns the lookup result with the populated cache,
or none when the refresh raised, together with the queries issued. -/
def lookupVultridS (env : Env) (st : Option Details) (which_key : JVal)
    (availkey keyname : String) : Option (JVal × Details) × List Ev :=
  match st with
  | some d => (some (lookupVultrid d which_key availkey keyname, d), [])
  | none =>
    match cacheProviderDetails env with
    | none => (none, catalogFetchEvents)
    | some d => (some (lookupVultrid d which_key availkey keyname, d), catalogFetchEvents)

/-- A sequence of _lookup_vultrid calls threading the DETAILS global; a
raised refresh stops the run. -/
def runLookups (env : Env) : Option Details → List (JVal × String × String) →
    Option Details × List Ev
  | st, [] => (st, [])
  | st, r :: rest =>
    match lookupVultridS env st r.1 r.2.1 r.2.2 with
    | (none, evs) => (st, evs)
    | (some (_, d), evs) =>
      let next := runLookups env (some d) rest
      (next.1, evs ++ next.2)

/-! ### Two-key index lemmas (for the catalog invariant). -/

theorem jget_pair_bindings {nm : JVal} {e : Entry} {k : String} (w : JVal)
    (h : nm = w ∨ JVal.s k = w) :
    jget [(nm, e), (JVal.s k, e)] w = some e := by
  show (if JVal.s k = w then some e else if nm = w then some e else none) = some e
  rcases h with h | h
  · by_cases h2 : JVal.s k = w <;> simp [h, h2]
  · simp [h]

theorem jget_pair_bindings_none {nm : JVal} {e : Entry} {k : String} (w : JVal)
    (h1 : nm ≠ w) (h2 : JVal.s k ≠ w) :
    jget [(nm, e), (JVal.s k, e)] w = none := by
  show (if JVal.s k = w then some e else if nm = w then some e else none) = none
  simp [h1, h2]

/-- A key bound to no entry of the category, neither as an id nor as a
name, is absent from the built index. -/
theorem catIndex_not_found (cat : Dict Entry) (idx : JDict Entry)
    (hidx : catIndex cat = some idx) (w : JVal)
    (habs : ∀ p ∈ cat, JVal.s p.1 ≠ w ∧ entryName p.2 ≠ some w) :
    jget idx w = none := by
  induction cat generalizing idx with
  | nil =>
    simp only [catIndex] at hidx
    cases hidx
    rfl
  | cons p t ih =>
    simp only [catIndex] at hidx
    rcases hnm : entryName p.2 with _ | nm <;> rw [hnm] at hidx
    · exact absurd hidx (by simp)
    rcases ht : catIndex t with _ | idxT <;> rw [ht] at hidx
    · exact absurd hidx (by simp)
    cases hidx
    have htail : jget idxT w = none :=
      ih idxT ht (fun q hq => habs q (List.mem_cons_of_mem p hq))
    rw [jget_append_of_none htail]
    have hp := habs p (List.mem_cons_self p t)
    exact jget_pair_bindings_none w (fun hc => hp.2 (hnm.trans (by rw [hc]))) hp.1


/-- Every entry of a fetched category is found in the built index both
under its provider id key and under its display name, provided the
category is well formed: distinct ids, distinct names, and no display
name colliding with the id of a different entry. -/
theorem catIndex_found (cat : Dict Entry) (idx : JDict Entry)
    (hidx : catIndex cat = some idx)
    (hids : (cat.map Prod.fst).Nodup)
    (hnames : ∀ p ∈ cat, ∀ q ∈ cat, p.1 ≠ q.1 → entryName p.2 ≠ entryName q.2)
    (hcross : ∀ p ∈ cat, ∀ q ∈ cat, entryName p.2 = some (JVal.s q.1) → p = q) :
    ∀ p ∈ cat, jget idx (JVal.s p.1) = some p.2 ∧
      ∀ nm, entryName p.2 = some nm → jget idx nm = some p.2 := by
  induction cat generalizing idx with
  | nil => intro p hp; exact absurd hp (List.not_mem_nil p)
  | cons p t ih =>
    simp only [catIndex] at hidx
    rcases hnm : entryName p.2 with _ | nmp <;> rw [hnm] at hidx
    · exact absurd hidx (by simp)
    rcases ht : catIndex t with _ | idxT <;> rw [ht] at hidx
    · exact absurd hidx (by simp)
    cases hidx
    rw [List.map_cons, List.nodup_cons] at hids
    have hfresh : p.1 ∉ t.map Prod.fst := hids.1
    have hne : ∀ r ∈ t, r.1 ≠ p.1 := by
      intro r hr hc
      exact hfresh (hc ▸ List.mem_map_of_mem Prod.fst hr)
    intro q hq
    rcases List.mem_cons.mp hq with rfl | hqt
    · constructor
      · have htail : jget idxT (JVal.s q.1) = none := by
          apply catIndex_not_found t idxT ht
          intro r hr
          refine ⟨fun hc => hne r hr (by injection hc), fun hc => ?_⟩
          have := hcross r (List.mem_cons_of_mem q hr) q (List.mem_cons_self q t) hc
          exact hne r hr (by rw [this])
        rw [jget_append_of_none htail]
        exact jget_pair_bindings _ (Or.inr rfl)
      · intro nm hnmq
        have hnmeq : nm = nmp := by
          rw [hnm] at hnmq
          exact (Option.some.injEq _ _ ▸ hnmq).symm
        subst hnmeq
        have htail : jget idxT nm = none := by
          apply catIndex_not_found t idxT ht
          intro r hr
          constructor
          · intro hc
            have : entryName q.2 = some (JVal.s r.1) := by rw [hnm, hc]
            have := hcross q (List.mem_cons_self q t) r (List.mem_cons_of_mem q hr) this
            exact hne r hr (by rw [this])
          · intro hc
            have hd := hnames q (List.mem_cons_self q t) r (List.mem_cons_of_mem q hr)
              (fun he => hne r hr he.symm)
            exact hd (hnm.trans hc.symm)
        rw [jget_append_of_none htail]
        exact jget_pair_bindings _ (Or.inl rfl)
    · have := ih idxT ht hids.2
        (fun a ha b hb => hnames a (List.mem_cons_of_mem p ha) b (List.mem_cons_of_mem p hb))
        (fun a ha b hb => hcross a (List.mem_cons_of_mem p ha) b (List.mem_cons_of_mem p hb))
        q hqt
      exact ⟨jget_append_of_some this.1,
        fun nm hnmq => jget_append_of_some (this.2 nm hnmq)⟩

/-- Claim C2: for every catalog category and every entry fetched by a
cache refresh (with well formed provider data: distinct ids, distinct
display names, and no display name colliding with the id of a different
entry), a lookup of the built index by the entry provider id and a
lookup by its display name return the same entry, and a key matching
neither an id nor a name of any entry returns the NotFound result. -/
theorem catalog_two_key_resolution (cat : Dict Entry) (idx : JDict Entry)
    (hidx : catIndex cat = some idx)
    (hids : (cat.map Prod.fst).Nodup)
    (hnames : ∀ p ∈ cat, ∀ q ∈ cat, p.1 ≠ q.1 → entryName p.2 ≠ entryName q.2)
    (hcross : ∀ p ∈ cat, ∀ q ∈ cat, entryName p.2 = some (JVal.s q.1) → p = q) :
    (∀ p ∈ cat, jget idx (JVal.s p.1) = some p.2 ∧
      ∀ nm, entryName p.2 = some nm → jget idx nm = some p.2) ∧
    (∀ w : JVal, (∀ p ∈ cat, JVal.s p.1 ≠ w ∧ entryName p.2 ≠ some w) →
      jget idx w = none) ∧
    (∀ (dts : Details) (availkey keyname : String), dget dts availkey = some idx →
      (∀ p ∈ cat,
        lookupVultrid dts (JVal.s p.1) availkey keyname
          = (dget p.2 keyname).getD (JVal.b false) ∧
        ∀ nm, entryName p.2 = some (JVal.s nm) →
          lookupVultrid dts (JVal.s nm) availkey keyname
            = (dget p.2 keyname).getD (JVal.b false)) ∧
      ∀ w : JVal,
        (∀ p ∈ cat, JVal.s p.1 ≠ JVal.s (pyStr w) ∧
          entryName p.2 ≠ some (JVal.s (pyStr w))) →
        lookupVultrid dts w availkey keyname = JVal.b false) := by
  have hfound := catIndex_found cat idx hidx hids hnames hcross
  refine ⟨hfound, fun w habs => catIndex_not_found cat idx hidx w habs, ?_⟩
  intro dts availkey keyname hav
  constructor
  · intro p hp
    constructor
    · simp only [lookupVultrid, hav, pyStr, (hfound p hp).1]
    · intro nm hnm
      simp only [lookupVultrid, hav, pyStr, (hfound p hp).2 (JVal.s nm) hnm]
  · intro w habs
    simp only [lookupVultrid, hav,
      catIndex_not_found cat idx hidx (JVal.s (pyStr w)) habs]

/-- A concrete two-entry location category used to instantiate the
two-key catalog theorem. -/
def catW : Dict Entry :=
  [("7", [("DCID", JVal.s "7"), ("name", JVal.s "Amsterdam")]),
   ("22", [("DCID", JVal.s "22"), ("name", JVal.s "Toronto")])]

/-- The index the refresh builds for the concrete category. -/
def idxW : JDict Entry :=
  [(JVal.s "Amsterdam", [("DCID", JVal.s "7"), ("name", JVal.s "Amsterdam")]),
   (JVal.s "7", [("DCID", JVal.s "7"), ("name", JVal.s "Amsterdam")]),
   (JVal.s "Toronto", [("DCID", JVal.s "22"), ("name", JVal.s "Toronto")]),
   (JVal.s "22", [("DCID", JVal.s "22"), ("name", JVal.s "Toronto")])]

/-- A details dict holding the concrete index under avail_locations. -/
def dtsW : Details := [("avail_locations", idxW)]

/-- Witness for claim C2 at a concrete category: both keys of the
Amsterdam entry resolve to it, through the raw index and through
_lookup_vultrid, and an unbound key is not found (False). -/
theorem catalog_two_key_resolution_witness :
    (catIndex catW = some idxW ∧ (catW.map Prod.fst).Nodup ∧
      (∀ p ∈ catW, ∀ q ∈ catW, p.1 ≠ q.1 → entryName p.2 ≠ entryName q.2) ∧
      (∀ p ∈ catW, ∀ q ∈ catW, entryName p.2 = some (JVal.s q.1) → p = q)) ∧
    jget idxW (JVal.s "7") = some [("DCID", JVal.s "7"), ("name", JVal.s "Amsterdam")] ∧
    jget idxW (JVal.s "Amsterdam")
      = some [("DCID", JVal.s "7"), ("name", JVal.s "Amsterdam")] ∧
    jget idxW (JVal.s "Chicago") = none ∧
    lookupVultrid dtsW (JVal.s "7") "avail_locations" "DCID" = JVal.s "7" ∧
    lookupVultrid dtsW (JVal.s "Amsterdam") "avail_locations" "DCID" = JVal.s "7" ∧
    lookupVultrid dtsW (JVal.s "Chicago") "avail_locations" "DCID" = JVal.b false := by
  have h := catalog_two_key_resolution catW idxW (by decide) (by decide) (by decide)
    (by decide)
  refine ⟨⟨by decide, by decide, by decide, by decide⟩, ?_, ?_, ?_, ?_, ?_, ?_⟩
  · exact (h.1 ("7", [("DCID", JVal.s "7"), ("name", JVal.s "Amsterdam")]) (by decide)).1
  · exact (h.1 ("7", [("DCID", JVal.s "7"), ("name", JVal.s "Amsterdam")]) (by decide)).2
      (JVal.s "Amsterdam") (by decide)
  · exact h.2.1 (JVal.s "Chicago") (by decide)
  · exact ((h.2.2 dtsW "avail_locations" "DCID" (by decide)).1
      ("7", [("DCID", JVal.s "7"), ("name", JVal.s "Amsterdam")]) (by decide)).1
  · exact ((h.2.2 dtsW "avail_locations" "DCID" (by decide)).1
      ("7", [("DCID", JVal.s "7"), ("name", JVal.s "Amsterdam")]) (by decide)).2
      "Amsterdam" (by decide)
  · exact (h.2.2 dtsW "avail_locations" "DCID" (by decide)).2 (JVal.s "Chicago") (by decide)

/-! ## The creation orchestrator, create (lines 569 to 899).

The request is the vm_ record merged with the configuration values read
through config.get_cloud_config_value at the top of create.  Optional
values absent from the configuration are none; values whose
get_cloud_config_value default is False are JVal.b false when unset. -/

/-- The creation request. -/
structure Conf where
  name : String
  image : JVal
  size : JVal
  location : JVal
  enable_private_network : Option JVal := some (JVal.b false)
  ssh_username : JVal := JVal.b false
  password : Option String := none
  ssh_key_names : Option String := none
  startup_script_id : Option JVal := none
  isoid : Option JVal := none
  ipxe_chain_url : JVal := JVal.b false
  userdata : Option String := none
  userdata_template : Option String := none
  firewall_group_id : Option JVal := none
  wait_for_fun_timeout : Option Int := none

/-- Truthiness of an optional configuration value (Python None is
falsy). -/
def optTruthy : Option JVal → Bool
  | some v => jTruthy v
  | none => false

/-- The startup script check (lines 607 to 612): when a script id is
given, avail_scripts is queried and the id must be one of its keys. -/
def scriptCheck (env : Env) (conf : Conf) : Bool × List Ev :=
  match conf.startup_script_id with
  | some v =>
    if jTruthy v then (dmem env.scripts (pyStr v), [Ev.queryList "startupscript/list"])
    else (true, [])
  | none => (true, [])

/-- The ISO check (lines 614 to 623): when an ISO id is given it must be
a key of the account ISO list or, failing that, of the public ISO list;
the public list is only queried when the account list misses. -/
def isoCheck (env : Env) (conf : Conf) : Bool × List Ev :=
  match conf.isoid with
  | some v =>
    if jTruthy v then
      if dmem env.acctIsos (pyStr v) then (true, [Ev.queryList "iso/list"])
      else (dmem env.publicIsos (pyStr v),
        [Ev.queryList "iso/list", Ev.queryList "iso/list_public"])
    else (true, [])
  | none => (true, [])

/-- The iPXE chain URL check (lines 625 to 633): a truthy URL must pass
the external URL validator. -/
def ipxeCheck (env : Env) (conf : Conf) : Bool :=
  if jTruthy conf.ipxe_chain_url then env.validUrl (pyStr conf.ipxe_chain_url)
  else true

/-- The firewall group check (lines 642 to 651). -/
def firewallCheck (env : Env) (conf : Conf) : Bool × List Ev :=
  match conf.firewall_group_id with
  | some v =>
    if jTruthy v then (dmem env.firewallGroups (pyStr v), [Ev.queryList "firewall/group_list"])
    else (true, [])
  | none => (true, [])

/-- The SSH key check (lines 653 to 659): when ssh_key_names is given,
the key list is queried once and every nonempty comma-separated name
must be one of its keys. -/
def sshKeyCheck (env : Env) (conf : Conf) : Bool × List Ev :=
  match conf.ssh_key_names with
  | some s =>
    ((splitComma s).all (fun k => k = "" || dmem env.sshKeys k),
      [Ev.queryList "sshkey/list"])
  | none => (true, [])

/-- The private networking check (lines 661 to 669): a present value
must be a boolean, else a SaltCloudConfigError is raised (none); the
request field becomes yes exactly for True. -/
def privateNetworkingCheck (conf : Conf) : Option String :=
  match conf.enable_private_network with
  | none => some "no"
  | some (JVal.b v) => some (if v then "yes" else "no")
  | some _ => none

/-- Outcome of the validation prelude of create. -/
inductive ValOut where
  | ok : String → ValOut
  | fail : ValOut
  | typeError : ValOut
deriving DecidableEq, Repr

/-- The validation prelude of create (lines 607 to 669), in source
order: startup script, ISO, iPXE URL, firewall group, SSH keys, private
networking; the first failing check returns False at once. -/
def validateOptional (env : Env) (conf : Conf) : ValOut × List Ev :=
  let s := scriptCheck env conf
  if !s.1 then (.fail, s.2) else
  let i := isoCheck env conf
  if !i.1 then (.fail, s.2 ++ i.2) else
  if !ipxeCheck env conf then (.fail, s.2 ++ i.2) else
  let f := firewallCheck env conf
  if !f.1 then (.fail, s.2 ++ i.2 ++ f.2) else
  let k := sshKeyCheck env conf
  if !k.1 then (.fail, s.2 ++ i.2 ++ f.2 ++ k.2) else
  match privateNetworkingCheck conf with
  | none => (.typeError, s.2 ++ i.2 ++ f.2 ++ k.2)
  | some epn => (.ok epn, s.2 ++ i.2 ++ f.2 ++ k.2)

/-- Outcome of the required-field resolution of create. -/
inductive ResolveOut where
  | ok : JVal → JVal → JVal → ResolveOut
  | failed : ResolveOut
  | crashed : ResolveOut
deriving DecidableEq, Repr

/-- The required-field resolution of create (lines 682 to 695): image,
size and location resolved in that order through _lookup_vultrid, each
falsy result aborting with False. -/
def resolveRequired (env : Env) (st : Option Details) (conf : Conf) :
    ResolveOut × Option Details × List Ev :=
  match lookupVultridS env st conf.image "avail_images" "OSID" with
  | (none, e1) => (.crashed, st, e1)
  | (some (osid, d1), e1) =>
    if !jTruthy osid then (.failed, some d1, e1) else
    match lookupVultridS env (some d1) conf.size "avail_sizes" "VPSPLANID" with
    | (none, e2) => (.crashed, some d1, e1 ++ e2)
    | (some (vpsplanid, d2), e2) =>
      if !jTruthy vpsplanid then (.failed, some d2, e1 ++ e2) else
      match lookupVultridS env (some d2) conf.location "avail_locations" "DCID" with
      | (none, e3) => (.crashed, some d2, e1 ++ e2 ++ e3)
      | (some (dcid, d3), e3) =>
        if !jTruthy dcid then (.failed, some d3, e1 ++ e2 ++ e3)
        else (.ok osid vpsplanid dcid, some d3, e1 ++ e2 ++ e3)

/-- Assembly of the server/create payload (lines 697 to 735).  The
userdata handling follows the source exactly: when the userdata value
names an existing readable file, its rendered contents are assigned
first, and then, because userdata is not None, the base64 encoding of
the original userdata value is assigned over it. -/
def assembleKwargs (env : Env) (conf : Conf) (epn : String)
    (osid vpsplanid dcid : JVal) : Dict JVal :=
  let kwargs : Dict JVal :=
    [("label", JVal.s conf.name), ("OSID", osid), ("VPSPLANID", vpsplanid),
     ("DCID", dcid), ("hostname", JVal.s conf.name),
     ("enable_private_network", JVal.s epn)]
  let kwargs := kwargs ++
    (match conf.startup_script_id with
     | some v => if jTruthy v then [("SCRIPTID", v)] else []
     | none => [])
  let kwargs := kwargs ++
    (match conf.isoid with
     | some v => if jTruthy v then [("ISOID", v)] else []
     | none => [])
  let kwargs := kwargs ++
    (if jTruthy conf.ipxe_chain_url then [("ipxe_chain_url", conf.ipxe_chain_url)] else [])
  let kwargs := kwargs ++
    (match conf.userdata with
     | some ud =>
       if env.isFile ud then
         match env.readFile ud with
         | some contents => [("userdata", JVal.s (env.renderTemplate contents))]
         | none => []
       else []
     | none => [])
  let kwargs := kwargs ++
    (match conf.userdata with
     | some ud => [("userdata", JVal.s (b64encode ud))]
     | none => [])
  let kwargs := kwargs ++
    (match conf.firewall_group_id with
     | some v => if jTruthy v then [("FIREWALLGROUPID", v)] else []
     | none => [])
  kwargs ++
    (match conf.ssh_key_names with
     | some s => if s ≠ "" then [("SSHKEYID", JVal.s s)] else []
     | none => [])

/-- Python falsiness of the password configuration value: absent or the
empty string (line 850, if not password). -/
def passwordFalsy : Option String → Bool
  | none => true
  | some s => s = ""

/-- The per-stage timeout: wait_for_fun_timeout with default 15
minutes. -/
def stageTimeout (conf : Conf) : Int :=
  conf.wait_for_fun_timeout.getD (15 * 60)

/-- The polling phase of create (lines 842 to 870): hostname wait, then
the default password wait unless a truthy password was configured, then
the status wait and the server state wait, each through
cloud.wait_for_fun with its own timeout read. -/
def createPollPhase (conf : Conf) : List Ev :=
  let evs := [Ev.poll "hostname" (stageTimeout conf)]
  let evs := evs ++
    (if passwordFalsy conf.password then [Ev.poll "default_password" (stageTimeout conf)]
     else [])
  let evs := evs ++ [Ev.poll "status" (stageTimeout conf)]
  evs ++ [Ev.poll "server_state" (stageTimeout conf)]

/-- The result of one create call. -/
inductive Outcome where
  | created : Outcome
  | failed : Outcome
  | configError : Outcome
  | crashed : Outcome
deriving DecidableEq, Repr

/-- One full run of create: its outcome, the DETAILS global it leaves
behind, and the trace of its observable effects. -/
structure CreateRun where
  outcome : Outcome
  details : Option Details
  trace : List Ev
deriving Repr

/-- The submission and aftermath of create (lines 739 to 899): the
requesting notification and the server/create POST; a thrown transport
error, an unreadable status or a status of at least 300 is a failure
with the requesting-failed notification; on success the four polling
stages run, then bootstrap, the final show_instance and the created
notification. -/
def submitPhase (env : Env) (conf : Conf) (kwargs : Dict JVal) : Outcome × List Ev :=
  match env.createResponse with
  | none =>
    (.failed, [Ev.fireEvent "requesting", Ev.submitCreate kwargs,
      Ev.fireEvent "requesting_failed"])
  | some data =>
    match pyInt ((dget data "status").getD (JVal.s "200")) with
    | none =>
      (.failed, [Ev.fireEvent "requesting", Ev.submitCreate kwargs,
        Ev.fireEvent "requesting_failed"])
    | some code =>
      if code ≥ 300 then
        (.failed, [Ev.fireEvent "requesting", Ev.submitCreate kwargs,
          Ev.fireEvent "requesting_failed"])
      else
        (.created,
          [Ev.fireEvent "requesting", Ev.submitCreate kwargs] ++ createPollPhase conf ++
            [Ev.bootstrap, Ev.queryList "server/list", Ev.fireEvent "created"])

/-- The submission phase either fails with the requesting-failed
notification or succeeds and runs the polls, bootstrap and the created
notification. -/
theorem submitPhase_cases (env : Env) (conf : Conf) (kwargs : Dict JVal) :
    submitPhase env conf kwargs =
      (Outcome.failed, [Ev.fireEvent "requesting", Ev.submitCreate kwargs,
        Ev.fireEvent "requesting_failed"])
    ∨ submitPhase env conf kwargs =
      (Outcome.created,
        [Ev.fireEvent "requesting", Ev.submitCreate kwargs] ++ createPollPhase conf ++
          [Ev.bootstrap, Ev.queryList "server/list", Ev.fireEvent "created"]) := by
  unfold submitPhase
  split
  · exact Or.inl rfl
  · split
    · exact Or.inl rfl
    · split
      · exact Or.inl rfl
      · exact Or.inr rfl

/-- create (lines 569 to 899): optional-reference validation, the
creating notification, required-field resolution through the catalog
cache, payload assembly, then the submission phase. -/
def create (env : Env) (conf : Conf) (st0 : Option Details) : CreateRun :=
  match validateOptional env conf with
  | (.fail, evs) => ⟨.failed, st0, evs⟩
  | (.typeError, evs) => ⟨.configError, st0, evs⟩
  | (.ok epn, evs0) =>
    let evs1 := evs0 ++ [Ev.fireEvent "creating"]
    match resolveRequired env st0 conf with
    | (.crashed, st1, evsR) => ⟨.crashed, st1, evs1 ++ evsR⟩
    | (.failed, st1, evsR) => ⟨.failed, st1, evs1 ++ evsR⟩
    | (.ok osid vpsplanid dcid, st1, evsR) =>
      let sp := submitPhase env conf (assembleKwargs env conf epn osid vpsplanid dcid)
      ⟨sp.1, st1, evs1 ++ evsR ++ sp.2⟩

/-- Is an event the server-creation submission, the one provider
mutating call. -/
def isSubmit : Ev → Bool
  | .submitCreate _ => true
  | _ => false

/-- Does a trace contain the server-creation submission call. -/
def hasSubmit (tr : List Ev) : Bool := tr.any isSubmit

/-- The payload of the first submission call of a trace, if any. -/
def submitPayload : List Ev → Option (Dict JVal)
  | [] => none
  | Ev.submitCreate kw :: _ => some kw
  | _ :: rest => submitPayload rest

/-! ## Concrete fixtures (from the test catalog data). -/

/-- A concrete environment with one location, image and size, two
firewall groups and one startup script. -/
def envFix : Env :=
  { locations := [("7", [("DCID", JVal.s "7"), ("name", JVal.s "Amsterdam")])],
    images := [("362", [("OSID", JVal.n 362), ("name", JVal.s "CentOS 8 x64")])],
    sizes := [("201", [("VPSPLANID", JVal.s "201"),
      ("name", JVal.s "1024 MB RAM,25 GB SSD,1.00 TB BW")])],
    scripts := [("793055", [("SCRIPTID", JVal.s "793055"), ("name", JVal.s "boot")])],
    acctIsos := [],
    publicIsos := [],
    firewallGroups := [("2aac0c5f", [("FIREWALLGROUPID", JVal.s "2aac0c5f")]),
      ("ef8d7e3c", [("FIREWALLGROUPID", JVal.s "ef8d7e3c")])],
    sshKeys := [],
    validUrl := fun _ => true,
    isFile := fun _ => false,
    readFile := fun _ => none,
    renderTemplate := fun c => c,
    createResponse := some [("SUBID", JVal.s "42164666")] }

/-- The end-to-end scenario request of the spec. -/
def confC7 : Conf :=
  { name := "host1", image := JVal.s "CentOS 8 x64",
    size := JVal.s "1024 MB RAM,25 GB SSD,1.00 TB BW",
    location := JVal.s "Amsterdam" }

/-- Claim C7: the end-to-end scenario request resolves through the
catalog to OSID 362, VPSPLANID 201 and DCID 7 and the submitted payload
carries those three ids plus the hostname host1. -/
theorem create_host1_payload :
    (submitPayload (create envFix confC7 none).trace).map
        (fun kw => (dget kw "OSID", dget kw "VPSPLANID", dget kw "DCID", dget kw "hostname"))
      = some (some (JVal.n 362), some (JVal.s "201"), some (JVal.s "7"),
          some (JVal.s "host1")) := by
  decide

/-- Environment in which the userdata value names an existing file whose
contents differ from its path. -/
def envC3 : Env :=
  { envFix with
    isFile := fun p => p = "/srv/scripts/userdata.tmpl",
    readFile := fun _ => some "echo hello",
    renderTemplate := fun c => c }

/-- Request supplying userdata as a path to an existing file. -/
def confC3 : Conf := { confC7 with userdata := some "/srv/scripts/userdata.tmpl" }

/-- Claim C3 failing input: when the userdata value names an existing
file, the payload field is the base64 of the literal path string, not
of the (rendered) file contents, because the literal branch runs after
the file branch and overwrites its assignment. -/
theorem create_userdata_encodes_literal_not_file :
    (submitPayload (create envC3 confC3 none).trace).map (fun kw => dget kw "userdata")
        = some (some (JVal.s (b64encode "/srv/scripts/userdata.tmpl")))
    ∧ b64encode "/srv/scripts/userdata.tmpl" ≠ b64encode "echo hello"
    ∧ (submitPayload (create envC3 confC3 none).trace).map (fun kw => dget kw "userdata")
        ≠ some (some (JVal.s (b64encode "echo hello")))
    ∧ (submitPayload (create envC3 confC3 none).trace).map (fun kw => dget kw "userdata")
        ≠ some (some (JVal.s "echo hello")) := by
  refine ⟨by decide, by decide, by decide, by decide⟩

/-- An instance snapshot whose readiness conditions are all met. -/
def instActive : Entry :=
  [("status", JVal.s "active"), ("server_state", JVal.s "ok"),
   ("default_password", JVal.s "c0Jkwj4sY5Y")]

/-- An instance snapshot whose readiness conditions are all unmet. -/
def instPending : Entry :=
  [("status", JVal.s "pending"), ("server_state", JVal.s "installingbooting"),
   ("default_password", JVal.s "not supported")]

/-- Claim C5 failing input: once their conditions hold, the status and
server state probes both return the default password of the instance,
not the value of the field they poll; while unmet they return the
not-ready sentinel after a one second sleep. -/
theorem wait_probes_return_default_password :
    wait_for_status instActive = ProbeResult.value (JVal.s "c0Jkwj4sY5Y")
    ∧ wait_for_status instActive ≠ ProbeResult.value (JVal.s "active")
    ∧ wait_for_server_state instActive = ProbeResult.value (JVal.s "c0Jkwj4sY5Y")
    ∧ wait_for_server_state instActive ≠ ProbeResult.value (JVal.s "ok")
    ∧ wait_for_status instPending = ProbeResult.notReady 1
    ∧ wait_for_server_state instPending = ProbeResult.notReady 1
    ∧ wait_for_default_password instPending = ProbeResult.notReady 1 := by
  decide

/-- Claim C8: a destroy response with empty body and text is success
(True); a response whose body carries an error field is returned as is,
never the success value True. -/
theorem destroy_empty_body_success (r : HttpResult) (h : bodyHasError r = true) :
    destroy ⟨some "", some ""⟩ = Sum.inl true
    ∧ destroy r = Sum.inr r
    ∧ destroy r ≠ Sum.inl true := by
  have hbody : r.body ≠ some "" := by
    intro hb
    rw [bodyHasError, hb] at h
    exact absurd h (by decide)
  have h2 : destroy r = Sum.inr r := by
    rw [destroy, if_neg]
    intro hc
    exact hbody hc.1
  exact ⟨by decide, h2, by rw [h2]; intro hc; cases hc⟩

/-- Witness for claim C8 at a concrete error response. -/
theorem destroy_empty_body_success_witness :
    bodyHasError ⟨some "error: Invalid server. Check SUBID.", none⟩ = true
    ∧ (destroy ⟨some "", some ""⟩ = Sum.inl true
      ∧ destroy ⟨some "error: Invalid server. Check SUBID.", none⟩
          = Sum.inr ⟨some "error: Invalid server. Check SUBID.", none⟩
      ∧ destroy ⟨some "error: Invalid server. Check SUBID.", none⟩ ≠ Sum.inl true) :=
  ⟨by decide, destroy_empty_body_success ⟨some "error: Invalid server. Check SUBID.", none⟩ (by decide)⟩

/-- A populated cache is reused as is: a lookup on it issues no
queries and leaves the snapshot unchanged. -/
theorem runLookups_populated (env : Env) (reqs : List (JVal × String × String)) :
    ∀ d : Details, runLookups env (some d) reqs = (some d, []) := by
  induction reqs with
  | nil => intro d; rfl
  | cons r rest ih =>
    intro d
    show runLookups env (some d) (r :: rest) = _
    simp only [runLookups, lookupVultridS]
    rw [ih d]
    rfl

/-- Claim C9: the catalog cache is populated at most once; a lookup on
a populated cache issues no catalog queries, and any sequence of
lookups started on the empty cache issues at most the single
three-query refresh. -/
theorem catalog_cache_fetch_at_most_once (env : Env)
    (reqs : List (JVal × String × String)) :
    (∀ d : Details, (runLookups env (some d) reqs).2 = []) ∧
    ((runLookups env none reqs).2 = [] ∨
      (runLookups env none reqs).2 = catalogFetchEvents) := by
  refine ⟨fun d => by rw [runLookups_populated], ?_⟩
  cases reqs with
  | nil => exact Or.inl rfl
  | cons r rest =>
    right
    show (runLookups env none (r :: rest)).2 = _
    simp only [runLookups, lookupVultridS]
    cases hc : cacheProviderDetails env with
    | none => rfl
    | some d => simp [runLookups_populated]

/-- Claim C10: _lookup_vultrid stringifies its key before indexing, so
a lookup with any value and a lookup with its string form return
identical results; in particular an integer key and its decimal string
form agree. -/
theorem lookup_stringifies_key (details : Details) (availkey keyname : String) :
    (∀ w : JVal, lookupVultrid details w availkey keyname
        = lookupVultrid details (JVal.s (pyStr w)) availkey keyname)
    ∧ ∀ n : Int, lookupVultrid details (JVal.n n) availkey keyname
        = lookupVultrid details (JVal.s (toString n)) availkey keyname :=
  ⟨fun _ => rfl, fun _ => rfl⟩

/-! ## Claim C6: the polling stages. -/

/-- Request supplying an explicit but empty password. -/
def confC6 : Conf := { confC7 with password := some "" }

/-- Counterexample to claim C6 as stated: with an explicit empty
password supplied, the default-password polling stage still runs, so the
stage is not skipped whenever an explicit password was supplied. -/
theorem password_empty_not_skipped_cex :
    confC6.password = some ""
    ∧ Ev.poll "default_password" 900 ∈ createPollPhase confC6
    ∧ Ev.poll "default_password" 900 ∈ (create envFix confC6 none).trace := by
  decide

/-- Claim C6 (amended): on submission success create drives exactly the
four polling stages in order, the default-password stage present exactly
when the configured password is absent or empty, every stage reading the
same configurable timeout whose default is 900 seconds. -/
theorem create_four_poll_stages (env : Env) (conf : Conf) (st0 : Option Details) :
    createPollPhase conf =
      [Ev.poll "hostname" (stageTimeout conf)] ++
        (if conf.password = none ∨ conf.password = some "" then
          [Ev.poll "default_password" (stageTimeout conf)]
        else []) ++
        [Ev.poll "status" (stageTimeout conf), Ev.poll "server_state" (stageTimeout conf)]
    ∧ (conf.wait_for_fun_timeout = none → stageTimeout conf = 900)
    ∧ (∀ t, conf.wait_for_fun_timeout = some t → stageTimeout conf = t)
    ∧ ((create env conf st0).outcome = Outcome.created →
        ∃ pre, (create env conf st0).trace =
          pre ++ createPollPhase conf ++
            [Ev.bootstrap, Ev.queryList "server/list", Ev.fireEvent "created"]) := by
  refine ⟨?_, ?_, ?_, ?_⟩
  · rcases hp : conf.password with _ | s
    · simp [createPollPhase, passwordFalsy, hp]
    · by_cases hs : s = "" <;> simp [createPollPhase, passwordFalsy, hp, hs]
  · intro h; simp [stageTimeout, h]
  · intro t h; simp [stageTimeout, h]
  · intro hc
    rcases hv : validateOptional env conf with ⟨o, evs⟩
    cases o with
    | fail => rw [show create env conf st0 = ⟨.failed, st0, evs⟩ from by
        simp [create, hv]] at hc; cases hc
    | typeError => rw [show create env conf st0 = ⟨.configError, st0, evs⟩ from by
        simp [create, hv]] at hc; cases hc
    | ok epn =>
      rcases hr : resolveRequired env st0 conf with ⟨ro, st1, evsR⟩
      cases ro with
      | crashed => rw [show create env conf st0 = ⟨.crashed, st1, (evs ++ [Ev.fireEvent "creating"]) ++ evsR⟩ from by
          simp [create, hv, hr]] at hc; cases hc
      | failed => rw [show create env conf st0 = ⟨.failed, st1, (evs ++ [Ev.fireEvent "creating"]) ++ evsR⟩ from by
          simp [create, hv, hr]] at hc; cases hc
      | ok osid vpsplanid dcid =>
        have hct : create env conf st0 =
            ⟨(submitPhase env conf (assembleKwargs env conf epn osid vpsplanid dcid)).1,
              st1,
              (evs ++ [Ev.fireEvent "creating"]) ++ evsR ++
                (submitPhase env conf (assembleKwargs env conf epn osid vpsplanid dcid)).2⟩ := by
          simp [create, hv, hr]
        rw [hct] at hc ⊢
        rcases submitPhase_cases env conf (assembleKwargs env conf epn osid vpsplanid dcid)
          with hsp | hsp
        · rw [hsp] at hc; cases hc
        · rw [hsp]
          refine ⟨(evs ++ [Ev.fireEvent "creating"]) ++ evsR ++
            [Ev.fireEvent "requesting",
             Ev.submitCreate (assembleKwargs env conf epn osid vpsplanid dcid)], ?_⟩
          simp [List.append_assoc]

/-! ## Claims C1 and C4: effects before the submission. -/

/-- Is every event of a trace a listing or catalog query. -/
def allQueries (evs : List Ev) : Bool :=
  evs.all fun e =>
    match e with
    | .queryList _ => true
    | _ => false

theorem allQueries_append (a b : List Ev) :
    allQueries (a ++ b) = (allQueries a && allQueries b) :=
  List.all_append

theorem hasSubmit_append (a b : List Ev) :
    hasSubmit (a ++ b) = (hasSubmit a || hasSubmit b) :=
  List.any_append

theorem allQueries_no_submit (evs : List Ev) (h : allQueries evs = true) :
    hasSubmit evs = false := by
  induction evs with
  | nil => rfl
  | cons e t ih =>
    simp only [allQueries, List.all_cons, Bool.and_eq_true] at h
    have ht : hasSubmit t = false := ih h.2
    show (isSubmit e || hasSubmit t) = false
    rw [ht]
    cases e with
    | queryList p => rfl
    | fireEvent s => exact Bool.noConfusion h.1
    | submitCreate kw => exact Bool.noConfusion h.1
    | poll s t2 => exact Bool.noConfusion h.1
    | bootstrap => exact Bool.noConfusion h.1

theorem scriptCheck_queries (env : Env) (conf : Conf) :
    allQueries (scriptCheck env conf).2 = true := by
  unfold scriptCheck
  split
  · split <;> rfl
  · rfl

theorem isoCheck_queries (env : Env) (conf : Conf) :
    allQueries (isoCheck env conf).2 = true := by
  unfold isoCheck
  split
  · split
    · split <;> rfl
    · rfl
  · rfl

theorem firewallCheck_queries (env : Env) (conf : Conf) :
    allQueries (firewallCheck env conf).2 = true := by
  unfold firewallCheck
  split
  · split <;> rfl
  · rfl

theorem sshKeyCheck_queries (env : Env) (conf : Conf) :
    allQueries (sshKeyCheck env conf).2 = true := by
  unfold sshKeyCheck
  split <;> rfl

/-- The validation prelude only issues listing queries: no notification,
no submission, no poll. -/
theorem validateOptional_events_queries (env : Env) (conf : Conf) (o : ValOut)
    (evs : List Ev) (h : validateOptional env conf = (o, evs)) :
    allQueries evs = true := by
  have hs := scriptCheck_queries env conf
  have hi := isoCheck_queries env conf
  have hf := firewallCheck_queries env conf
  have hk := sshKeyCheck_queries env conf
  simp only [validateOptional] at h
  repeat' split at h
  all_goals
    injection h with h1 h2
  all_goals
    subst h2
  all_goals
    simp [allQueries_append, hs, hi, hf, hk]

/-- Request with a valid startup script reference. -/
def confC4 : Conf := { confC7 with startup_script_id := some (JVal.n 793055) }

/-- Counterexample to claim C4 as stated: on a concrete request the
startup script validation query comes first, the creation-starting
notification second, and the catalog fetch backing required-field
resolution only after both, the reverse of the claimed order. -/
theorem create_notification_before_resolution_cex :
    (create envFix confC4 none).trace.take 5 =
      [Ev.queryList "startupscript/list", Ev.fireEvent "creating",
       Ev.queryList "regions/list", Ev.queryList "os/list",
       Ev.queryList "plans/list"] := by
  decide

/-- Claim C4 (amended): create runs optional-reference validation
first (issuing only listing queries), emits the creation-starting
notification only if validation succeeded, and resolves the required
references through the catalog cache only after the notification;
a validation failure produces nothing beyond the validation queries. -/
theorem create_step_order (env : Env) (conf : Conf) (st0 : Option Details) :
    ∃ tail, (create env conf st0).trace = (validateOptional env conf).2 ++ tail
      ∧ allQueries (validateOptional env conf).2 = true
      ∧ (((validateOptional env conf).1 = ValOut.fail ∨
          (validateOptional env conf).1 = ValOut.typeError) → tail = [])
      ∧ (∀ epn, (validateOptional env conf).1 = ValOut.ok epn →
          ∃ rest, tail =
            Ev.fireEvent "creating" :: ((resolveRequired env st0 conf).2.2 ++ rest)) := by
  rcases hv : validateOptional env conf with ⟨o, evs⟩
  have hq := validateOptional_events_queries env conf o evs hv
  cases o with
  | fail =>
    refine ⟨[], ?_, hq, fun _ => rfl, ?_⟩
    · have hc : create env conf st0 = ⟨.failed, st0, evs⟩ := by simp [create, hv]
      rw [hc]; simp
    · intro epn hepn; exact ValOut.noConfusion hepn
  | typeError =>
    refine ⟨[], ?_, hq, fun _ => rfl, ?_⟩
    · have hc : create env conf st0 = ⟨.configError, st0, evs⟩ := by simp [create, hv]
      rw [hc]; simp
    · intro epn hepn; exact ValOut.noConfusion hepn
  | ok epn =>
    rcases hr : resolveRequired env st0 conf with ⟨ro, st1, evsR⟩
    have hno : ¬((ValOut.ok epn, evs).1 = ValOut.fail ∨
        (ValOut.ok epn, evs).1 = ValOut.typeError) := by
      intro hcon
      rcases hcon with hcon | hcon <;> exact ValOut.noConfusion hcon
    cases ro with
    | crashed =>
      refine ⟨Ev.fireEvent "creating" :: evsR, ?_, hq, fun hcon => absurd hcon hno, ?_⟩
      · have hc : create env conf st0 =
            ⟨.crashed, st1, (evs ++ [Ev.fireEvent "creating"]) ++ evsR⟩ := by
          simp [create, hv, hr]
        rw [hc]; simp
      · intro epn2 hepn
        refine ⟨[], ?_⟩
        simp
    | failed =>
      refine ⟨Ev.fireEvent "creating" :: evsR, ?_, hq, fun hcon => absurd hcon hno, ?_⟩
      · have hc : create env conf st0 =
            ⟨.failed, st1, (evs ++ [Ev.fireEvent "creating"]) ++ evsR⟩ := by
          simp [create, hv, hr]
        rw [hc]; simp
      · intro epn2 hepn
        refine ⟨[], ?_⟩
        simp
    | ok osid vpsplanid dcid =>
      refine ⟨Ev.fireEvent "creating" ::
        (evsR ++ (submitPhase env conf (assembleKwargs env conf epn osid vpsplanid dcid)).2),
        ?_, hq, fun hcon => absurd hcon hno, ?_⟩
      · have hc : create env conf st0 =
            ⟨(submitPhase env conf (assembleKwargs env conf epn osid vpsplanid dcid)).1,
              st1,
              (evs ++ [Ev.fireEvent "creating"]) ++ evsR ++
                (submitPhase env conf (assembleKwargs env conf epn osid vpsplanid dcid)).2⟩ := by
          simp [create, hv, hr]
        rw [hc]; simp
      · intro epn2 hepn
        exact ⟨(submitPhase env conf (assembleKwargs env conf epn osid vpsplanid dcid)).2, rfl⟩

/-- Does any present optional reference fail its validation: a truthy
startup script id absent from the script list, a truthy ISO id absent
from both ISO lists, a truthy iPXE URL failing the URL validator, a
truthy firewall group id absent from the group list, or a nonempty SSH
key name absent from the key list. -/
def optionalRefFails (env : Env) (conf : Conf) : Bool :=
  !(scriptCheck env conf).1 || !(isoCheck env conf).1 || !(ipxeCheck env conf)
    || !(firewallCheck env conf).1 || !(sshKeyCheck env conf).1

/-- Does some required field fail catalog resolution against the
populated cache: a falsy _lookup_vultrid result for the image, size or
location. -/
def requiredResolutionFails (d : Details) (conf : Conf) : Bool :=
  !jTruthy (lookupVultrid d conf.image "avail_images" "OSID")
    || !jTruthy (lookupVultrid d conf.size "avail_sizes" "VPSPLANID")
    || !jTruthy (lookupVultrid d conf.location "avail_locations" "DCID")

/-- When some optional reference fails validation, the validation
prelude returns the failure outcome. -/
theorem optfail_validate_fail (env : Env) (conf : Conf)
    (h : optionalRefFails env conf = true) :
    (validateOptional env conf).1 = ValOut.fail := by
  unfold optionalRefFails at h
  simp only [validateOptional]
  split
  · rfl
  next h1 =>
    split
    · rfl
    next h2 =>
      split
      · rfl
      next h3 =>
        split
        · rfl
        next h4 =>
          split
          · rfl
          next h5 =>
            exfalso
            have e1 : (scriptCheck env conf).1 = true := by
              revert h1; cases (scriptCheck env conf).1 <;> simp
            have e2 : (isoCheck env conf).1 = true := by
              revert h2; cases (isoCheck env conf).1 <;> simp
            have e3 : ipxeCheck env conf = true := by
              revert h3; cases ipxeCheck env conf <;> simp
            have e4 : (firewallCheck env conf).1 = true := by
              revert h4; cases (firewallCheck env conf).1 <;> simp
            have e5 : (sshKeyCheck env conf).1 = true := by
              revert h5; cases (sshKeyCheck env conf).1 <;> simp
            simp [e1, e2, e3, e4, e5] at h

/-- When some required field fails resolution against the cache the
refresh builds, the resolution step of create aborts with the failure
outcome after issuing only the three catalog queries. -/
theorem resolveRequired_fails (env : Env) (conf : Conf) (d : Details)
    (hD : cacheProviderDetails env = some d)
    (h : requiredResolutionFails d conf = true) :
    ∃ st1, resolveRequired env none conf = (ResolveOut.failed, st1, catalogFetchEvents) := by
  unfold requiredResolutionFails at h
  unfold resolveRequired
  simp only [lookupVultridS, hD]
  by_cases h1 : jTruthy (lookupVultrid d conf.image "avail_images" "OSID")
  · by_cases h2 : jTruthy (lookupVultrid d conf.size "avail_sizes" "VPSPLANID")
    · by_cases h3 : jTruthy (lookupVultrid d conf.location "avail_locations" "DCID")
      · exfalso; simp [h1, h2, h3] at h
      · exact ⟨some d, by simp [h1, h2, h3]⟩
    · exact ⟨some d, by simp [h1, h2]⟩
  · exact ⟨some d, by simp [h1]⟩

/-- Claim C1: whenever any required field fails catalog resolution or
any present optional reference fails validation, create does not return
a created instance and its trace never contains the server-creation
submission call, the only provider-mutating call. -/
theorem create_no_submit_on_precondition_failure (env : Env) (conf : Conf)
    (d : Details) (hD : cacheProviderDetails env = some d)
    (h : optionalRefFails env conf = true ∨ requiredResolutionFails d conf = true) :
    (create env conf none).outcome ≠ Outcome.created
    ∧ hasSubmit (create env conf none).trace = false := by
  rcases hv : validateOptional env conf with ⟨o, evs⟩
  have hq := validateOptional_events_queries env conf o evs hv
  have hqs := allQueries_no_submit evs hq
  cases o with
  | fail =>
    have hc : create env conf none = ⟨.failed, none, evs⟩ := by simp [create, hv]
    rw [hc]
    exact ⟨by simp, hqs⟩
  | typeError =>
    have hc : create env conf none = ⟨.configError, none, evs⟩ := by simp [create, hv]
    rw [hc]
    exact ⟨by simp, hqs⟩
  | ok epn =>
    have hreq : requiredResolutionFails d conf = true := by
      rcases h with ho | hr
      · have := optfail_validate_fail env conf ho
        rw [hv] at this
        exact absurd this (by simp)
      · exact hr
    obtain ⟨st1, hrr⟩ := resolveRequired_fails env conf d hD hreq
    have hc : create env conf none =
        ⟨.failed, st1, (evs ++ [Ev.fireEvent "creating"]) ++ catalogFetchEvents⟩ := by
      simp [create, hv, hrr]
    rw [hc]
    refine ⟨by simp, ?_⟩
    show hasSubmit ((evs ++ [Ev.fireEvent "creating"]) ++ catalogFetchEvents) = false
    rw [hasSubmit_append, hasSubmit_append, hqs]
    rfl

/-- The spec scenario request whose firewall group reference is absent
from the firewall group catalog. -/
def confC1 : Conf := { confC7 with firewall_group_id := some (JVal.s "99999999") }

/-- The cache the fixture environment refresh builds. -/
def dFix : Details := (cacheProviderDetails envFix).getD []

/-- Witness for claim C1 at a concrete failing firewall reference. -/
theorem create_no_submit_witness :
    cacheProviderDetails envFix = some dFix
    ∧ (optionalRefFails envFix confC1 = true ∨ requiredResolutionFails dFix confC1 = true)
    ∧ ((create envFix confC1 none).outcome ≠ Outcome.created
      ∧ hasSubmit (create envFix confC1 none).trace = false) :=
  ⟨by decide, Or.inl (by decide),
    create_no_submit_on_precondition_failure envFix confC1 dFix (by decide)
      (Or.inl (by decide))⟩

end VultrPy
